import Mathlib

/-!
Verification of `plugins/modules/check_whoami.py` from the
`network.offline_migration_sdn_to_ovnk` collection.

The module shells out to the `oc` CLI to decide whether the current user
holds cluster-admin rights.  We embed its three functions
(`run_command_with_retries`, `check_cluster_admin`, `run_module`) as pure
Lean functions over an explicit environment: the Ansible module's
`run_command` primitive is modelled as a stream of `(rc, stdout, stderr)`
triples indexed by attempt number (one stream per external command), and
the side effects the specification talks about (attempts made, sleeps
performed, warnings emitted) are recorded in the returned outcome records.
-/

namespace CheckWhoami

/-- Result of one `module.run_command` invocation: exit code, stdout, stderr. -/
structure CmdResult where
  rc : Int
  stdout : String
  stderr : String
  deriving Repr, DecidableEq, Inhabited

/-- Observable outcome of `run_command_with_retries`: the returned
`(output, error)` pair together with the attempt count, the number of
`time.sleep` calls and the warnings emitted via `module.warn`. -/
structure RunnerOutcome where
  output : Option String
  error : Option String
  attempts : Nat
  delays : Nat
  warns : List String
  deriving Repr, DecidableEq

/-- `isPrefixList n h` decides whether `n` is a leading segment of `h`. -/
def isPrefixList : List Char → List Char → Bool
  | [], _ => true
  | _ :: _, [] => false
  | a :: as, b :: bs => a == b && isPrefixList as bs

/-- `hasSubstrAux n h` decides whether `n` occurs contiguously in `h`
(Python's `n in h` on strings). -/
def hasSubstrAux (needle : List Char) (haystack : List Char) : Bool :=
  isPrefixList needle haystack ||
    match haystack with
    | [] => false
    | _ :: rest => hasSubstrAux needle rest

/-- Python's substring test `needle in haystack` (case-sensitive). -/
def strContains (haystack needle : String) : Bool :=
  hasSubstrAux needle.data haystack.data

/-- ASCII whitespace as recognized by Python's `str.strip()`. -/
def isPyWhitespace (c : Char) : Bool :=
  c == ' ' || c == '\t' || c == '\n' || c == '\r' ||
    c == Char.ofNat 11 || c == Char.ofNat 12

/-- Python's `str.strip()`: drop leading and trailing whitespace. -/
def pyStrip (s : String) : String :=
  ⟨((s.data.dropWhile isPyWhitespace).reverse.dropWhile isPyWhitespace).reverse⟩

/-- Number of positions of `haystack` at which `needle` starts. -/
def countOccsAux (needle : List Char) : List Char → Nat
  | [] => if isPrefixList needle [] then 1 else 0
  | c :: rest =>
    (if isPrefixList needle (c :: rest) then 1 else 0) + countOccsAux needle rest

/-- Number of (possibly overlapping) occurrences of `needle` in `haystack`. -/
def countOccs (haystack needle : String) : Nat :=
  countOccsAux needle.data haystack.data

/-- The body of the `for attempt in range(retries)` loop of
`run_command_with_retries`.  `attempt` is the current 0-based attempt index
and `remaining + 1` the number of loop iterations still to run, so the
Python guard `attempt < retries - 1` is exactly `remaining ≠ 0`, i.e. the
recursive branch is taken when at least one iteration follows this one.
`remaining = 0` is the loop running to completion, Python's final
`return None, "Unknown error"`. -/
def runLoop (exec : Nat → CmdResult) (retriesStr delayStr : String) :
    Nat → Nat → RunnerOutcome
  | _, 0 => ⟨none, some "Unknown error", 0, 0, []⟩
  | attempt, remaining + 1 =>
    let r := exec attempt
    if r.rc = 0 then
      ⟨some (pyStrip r.stdout), none, 1, 0, []⟩
    else if remaining = 0 then
      ⟨none,
        some ("Command failed after " ++ retriesStr ++ " attempts: " ++ pyStrip r.stderr),
        1, 0, []⟩
    else
      let rest := runLoop exec retriesStr delayStr (attempt + 1) remaining
      ⟨rest.output, rest.error, rest.attempts + 1, rest.delays + 1,
        ("Retrying in " ++ delayStr ++ " seconds due to error: " ++ pyStrip r.stderr)
          :: rest.warns⟩

/-- `run_command_with_retries(module, command, retries, delay)`.  The
`module.run_command` facility is abstracted as `exec`, giving the result of
the attempt with each index; the command string itself is only ever passed
through to that facility.  Python's `range(retries)` on a non-positive
`int` is empty, hence `retries.toNat`. -/
def run_command_with_retries (exec : Nat → CmdResult) (retries delay : Int) :
    RunnerOutcome :=
  runLoop exec (toString retries) (toString delay) 0 retries.toNat

/-- Python truthiness of an `Optional[str]` (`if error:`): `None` and the
empty string are falsy. -/
def pyTruthy : Option String → Bool
  | none => false
  | some s => !(s == "")

/-- The identity command literal. -/
def user_command : String := "oc whoami"

/-- A single-quote character, kept out of string literals. -/
def sq : String := String.singleton (Char.ofNat 39)

/-- The permission command literal: oc auth can-i with two wildcard arguments. -/
def check_admin_command : String :=
  "oc auth can-i " ++ sq ++ "*" ++ sq ++ " " ++ sq ++ "*" ++ sq ++ " --all-namespaces"

/-- The module environment seen by `check_cluster_admin`: one
attempt-indexed result stream per external command. -/
structure ClusterEnv where
  execWhoami : Nat → CmdResult
  execCanI : Nat → CmdResult

/-- Observable outcome of `check_cluster_admin`: the returned
`(user, error)` pair plus how many `module.run_command` invocations each of
the two commands received. -/
structure CheckOutcome where
  user : Option String
  error : Option String
  whoamiAttempts : Nat
  caniAttempts : Nat
  deriving Repr, DecidableEq

/-- `check_cluster_admin(module)`: run the identity command, and on success
the permission command, both with the default policy (3 retries, 3s delay);
then authorize iff `"yes" in admin_rights or user == "system:admin"`. -/
def check_cluster_admin (env : ClusterEnv) : CheckOutcome :=
  let r1 := run_command_with_retries env.execWhoami 3 3
  if pyTruthy r1.error then
    ⟨none,
      some ("Failed to execute `" ++ user_command ++
        "`. Ensure `oc` client is configured correctly."),
      r1.attempts, 0⟩
  else
    let user := r1.output.getD ""
    let r2 := run_command_with_retries env.execCanI 3 3
    if pyTruthy r2.error then
      ⟨none,
        some ("Failed to verify cluster-admin rights. Error: " ++ r2.error.getD ""),
        r1.attempts, r2.attempts⟩
    else
      let admin_rights := r2.output.getD ""
      if strContains admin_rights "yes" || user == "system:admin" then
        ⟨some user, none, r1.attempts, r2.attempts⟩
      else
        ⟨some user, some "User does not have `cluster-admin` rights.",
          r1.attempts, r2.attempts⟩

/-- Python f-string rendering of an `Optional[str]` value: `None` prints as
the four characters `None`. -/
def pyStrOpt : Option String → String
  | none => "None"
  | some s => s

/-- The structured result emitted by `run_module`: either
`module.fail_json(msg=...)` or `module.exit_json(changed=..., message=...)`. -/
inductive ModuleResponse where
  | failJson (msg : String)
  | exitJson (changed : Bool) (message : String)
  deriving Repr, DecidableEq

/-- `run_module()`: convert the decision's `(user, error)` outcome into a
failed or successful module result. -/
def run_module (env : ClusterEnv) : ModuleResponse :=
  let o := check_cluster_admin env
  if pyTruthy o.error then
    ModuleResponse.failJson
      ("Current user `" ++ pyStrOpt o.user ++
        "` does not have `cluster-admin` rights. " ++ o.error.getD "")
  else
    ModuleResponse.exitJson false
      ("User `" ++ pyStrOpt o.user ++ "` has `cluster-admin` privileges.")

/-! ### Helper lemmas about the string primitives -/

/-- A list is a leading segment of itself followed by anything. -/
theorem isPrefixList_self_append (n t : List Char) :
    isPrefixList n (n ++ t) = true := by
  induction n with
  | nil => rfl
  | cons a as ih => simp [isPrefixList, ih]

/-- A needle occurs in any haystack of the shape `p ++ (needle ++ t)`. -/
theorem hasSubstrAux_mid (p n t : List Char) :
    hasSubstrAux n (p ++ (n ++ t)) = true := by
  induction p with
  | nil =>
    rw [List.nil_append]
    unfold hasSubstrAux
    rw [isPrefixList_self_append]
    rfl
  | cons c p ih =>
    rw [List.cons_append]
    unfold hasSubstrAux
    simp [ih]

/-- Python's `in`: `n` occurs in `p ++ (n ++ t)`. -/
theorem strContains_append_mid (p n t : String) :
    strContains (p ++ (n ++ t)) n = true := by
  unfold strContains
  rw [String.data_append, String.data_append]
  exact hasSubstrAux_mid p.data n.data t.data

/-- Python's `in`: `n` occurs at the end of `p ++ n`. -/
theorem strContains_append_right (p n : String) :
    strContains (p ++ n) n = true := by
  have h := strContains_append_mid p n ""
  rwa [String.append_empty] at h

/-- Appending to a non-empty string keeps it non-empty. -/
theorem append_ne_empty_left (a b : String) (h : a ≠ "") : a ++ b ≠ "" := by
  intro hab
  apply h
  apply String.ext
  have hd := congrArg String.data hab
  rw [String.data_append] at hd
  exact (List.append_eq_nil.mp hd).1

/-- Occurrence counts only grow when material is prepended (one step). -/
theorem countOccsAux_cons_le (n : List Char) (c : Char) (t : List Char) :
    countOccsAux n t ≤ countOccsAux n (c :: t) := by
  simp only [countOccsAux]
  split <;> omega

/-- Occurrence counts only grow when material is prepended. -/
theorem countOccsAux_append_le (n p t : List Char) :
    countOccsAux n t ≤ countOccsAux n (p ++ t) := by
  induction p with
  | nil => simp
  | cons c p ih =>
    rw [List.cons_append]
    exact le_trans ih (countOccsAux_cons_le n c (p ++ t))

/-! ### Helper lemmas about the retry loop -/

/-- Any error message produced by the retry loop is non-empty, so Python's
`if error:` test coincides with an is-`None` test on this module's data. -/
theorem runLoop_error_ne_empty (exec : Nat → CmdResult) (rs ds : String) :
    ∀ rem a e, (runLoop exec rs ds a rem).error = some e → e ≠ "" := by
  intro rem
  induction rem with
  | zero =>
    intro a e h
    simp only [runLoop, Option.some.injEq] at h
    subst h
    decide
  | succ m ih =>
    intro a e h
    by_cases h0 : (exec a).rc = 0
    · simp [runLoop, h0] at h
    · by_cases hm : m = 0
      · subst hm
        simp only [runLoop, h0, if_false, if_neg, reduceIte, Option.some.injEq] at h
        subst h
        apply append_ne_empty_left
        apply append_ne_empty_left
        apply append_ne_empty_left
        decide
      · simp only [runLoop, h0, hm, if_false, if_neg, reduceIte] at h
        exact ih (a + 1) e h

/-- If the attempts at indices `a, …, a+k-1` fail and the one at `a+k`
succeeds (with `k` strictly inside the window), the loop returns that
attempt's stripped stdout, no error, `k+1` attempts and `k` sleeps. -/
theorem runLoop_success (exec : Nat → CmdResult) (rs ds : String) :
    ∀ k a rem, k < rem → (∀ i, i < k → (exec (a + i)).rc ≠ 0) →
      (exec (a + k)).rc = 0 →
      (runLoop exec rs ds a rem).output = some (pyStrip ((exec (a + k)).stdout)) ∧
      (runLoop exec rs ds a rem).error = none ∧
      (runLoop exec rs ds a rem).attempts = k + 1 ∧
      (runLoop exec rs ds a rem).delays = k := by
  intro k
  induction k with
  | zero =>
    intro a rem hlt hfail hsucc
    obtain ⟨m, rfl⟩ : ∃ m, rem = m + 1 := ⟨rem - 1, by omega⟩
    rw [Nat.add_zero] at hsucc
    simp [runLoop, hsucc]
  | succ n ih =>
    intro a rem hlt hfail hsucc
    obtain ⟨m, rfl⟩ : ∃ m, rem = m + 1 := ⟨rem - 1, by omega⟩
    have h0 : (exec a).rc ≠ 0 := by
      have h := hfail 0 (Nat.succ_pos n)
      rwa [Nat.add_zero] at h
    have hm : m ≠ 0 := by omega
    have hrec := ih (a + 1) m (by omega)
      (fun i hi => by
        have h := hfail (i + 1) (by omega)
        have he : a + (i + 1) = a + 1 + i := by omega
        rwa [he] at h)
      (by
        have he : a + (n + 1) = a + 1 + n := by omega
        rwa [he] at hsucc)
    have he : a + (n + 1) = a + 1 + n := by omega
    rw [he]
    simp only [runLoop, h0, hm, if_false, if_neg, reduceIte]
    refine ⟨hrec.1, hrec.2.1, ?_, ?_⟩
    · rw [hrec.2.2.1]
    · rw [hrec.2.2.2]

/-- If every attempt in the window fails, the loop returns no output, the
terminal failure message built from the final attempt's stripped stderr,
`rem` attempts and `rem - 1` sleeps. -/
theorem runLoop_allfail (exec : Nat → CmdResult) (rs ds : String) :
    ∀ rem a, 0 < rem → (∀ i, i < rem → (exec (a + i)).rc ≠ 0) →
      (runLoop exec rs ds a rem).output = none ∧
      (runLoop exec rs ds a rem).error =
        some ("Command failed after " ++ rs ++ " attempts: " ++
          pyStrip ((exec (a + (rem - 1))).stderr)) ∧
      (runLoop exec rs ds a rem).attempts = rem ∧
      (runLoop exec rs ds a rem).delays = rem - 1 := by
  intro rem
  induction rem with
  | zero => intro a h; omega
  | succ m ih =>
    intro a _ hfail
    have h0 : (exec a).rc ≠ 0 := by
      have h := hfail 0 (Nat.succ_pos m)
      rwa [Nat.add_zero] at h
    by_cases hm : m = 0
    · subst hm
      simp [runLoop, h0]
    · have hrec := ih (a + 1) (by omega)
        (fun i hi => by
          have h := hfail (i + 1) (by omega)
          have he : a + (i + 1) = a + 1 + i := by omega
          rwa [he] at h)
      have he : a + (m + 1 - 1) = a + 1 + (m - 1) := by omega
      rw [he]
      simp only [runLoop, h0, hm, if_false, if_neg, reduceIte]
      refine ⟨hrec.1, hrec.2.1, ?_, ?_⟩
      · rw [hrec.2.2.1]
      · rw [hrec.2.2.2]; omega

/-! ### Helper lemmas about the decision function -/

/-- Identity-command failure branch of `check_cluster_admin`: the retry
failure detail is discarded and replaced by the fixed generic message, and
the permission command receives zero invocations. -/
theorem check_cluster_admin_identity_error (env : ClusterEnv) (e : String)
    (h : (run_command_with_retries env.execWhoami 3 3).error = some e) :
    check_cluster_admin env =
      ⟨none,
        some "Failed to execute `oc whoami`. Ensure `oc` client is configured correctly.",
        (run_command_with_retries env.execWhoami 3 3).attempts, 0⟩ := by
  have hne : e ≠ "" :=
    runLoop_error_ne_empty env.execWhoami (toString (3 : Int)) (toString (3 : Int))
      (3 : Int).toNat 0 e h
  have ht : pyTruthy (run_command_with_retries env.execWhoami 3 3).error = true := by
    rw [h]
    simp [pyTruthy, hne]
  simp only [check_cluster_admin, ht, if_true, reduceIte]
  rfl

/-- Permission-command failure branch of `check_cluster_admin`: the raw
retry failure message is propagated into the returned error. -/
theorem check_cluster_admin_cani_error (env : ClusterEnv) (e : String)
    (h1 : (run_command_with_retries env.execWhoami 3 3).error = none)
    (h2 : (run_command_with_retries env.execCanI 3 3).error = some e) :
    check_cluster_admin env =
      ⟨none,
        some ("Failed to verify cluster-admin rights. Error: " ++ e),
        (run_command_with_retries env.execWhoami 3 3).attempts,
        (run_command_with_retries env.execCanI 3 3).attempts⟩ := by
  have hne : e ≠ "" :=
    runLoop_error_ne_empty env.execCanI (toString (3 : Int)) (toString (3 : Int))
      (3 : Int).toNat 0 e h2
  have ht2 : pyTruthy (run_command_with_retries env.execCanI 3 3).error = true := by
    rw [h2]
    simp [pyTruthy, hne]
  simp only [check_cluster_admin, h1, ht2, pyTruthy, Bool.false_eq_true, if_false,
    if_true, reduceIte, h2, Option.getD_some]
  simp [hne]

/-- Both commands succeeded: `check_cluster_admin` applies the
authorization policy `"yes" in admin_rights or user == "system:admin"` to
the two stripped outputs. -/
theorem check_cluster_admin_policy_eval (env : ClusterEnv) (u a : String)
    (h1 : (run_command_with_retries env.execWhoami 3 3).output = some u)
    (h1e : (run_command_with_retries env.execWhoami 3 3).error = none)
    (h2 : (run_command_with_retries env.execCanI 3 3).output = some a)
    (h2e : (run_command_with_retries env.execCanI 3 3).error = none) :
    check_cluster_admin env =
      if strContains a "yes" || u == "system:admin" then
        ⟨some u, none,
          (run_command_with_retries env.execWhoami 3 3).attempts,
          (run_command_with_retries env.execCanI 3 3).attempts⟩
      else
        ⟨some u, some "User does not have `cluster-admin` rights.",
          (run_command_with_retries env.execWhoami 3 3).attempts,
          (run_command_with_retries env.execCanI 3 3).attempts⟩ := by
  simp only [check_cluster_admin, h1, h1e, h2, h2e, pyTruthy, Bool.false_eq_true,
    if_false, reduceIte, Option.getD_some]

/-- The retry loop always resolves: it returns either some output or some
error message (the two sides of the Python `(stdout, error)` pair). -/
theorem runLoop_output_or_error (exec : Nat → CmdResult) (rs ds : String) :
    ∀ rem a,
      (∃ s, (runLoop exec rs ds a rem).output = some s) ∨
      (∃ e, (runLoop exec rs ds a rem).error = some e) := by
  intro rem
  induction rem with
  | zero => intro a; right; exact ⟨"Unknown error", rfl⟩
  | succ m ih =>
    intro a
    by_cases h0 : (exec a).rc = 0
    · left; exact ⟨pyStrip ((exec a).stdout), by simp [runLoop, h0]⟩
    · by_cases hm : m = 0
      · right
        subst hm
        exact ⟨"Command failed after " ++ rs ++ " attempts: " ++ pyStrip ((exec a).stderr),
          by simp [runLoop, h0]⟩
      · rcases ih (a + 1) with ⟨s, hs⟩ | ⟨e, hh⟩
        · left
          exact ⟨s, by simp only [runLoop, h0, hm, if_false, reduceIte]; exact hs⟩
        · right
          exact ⟨e, by simp only [runLoop, h0, hm, if_false, reduceIte]; exact hh⟩

/-- Any error returned by `check_cluster_admin` is a non-empty string, so
`run_module`'s `if error:` test coincides with an is-`None` test. -/
theorem check_error_ne_empty (env : ClusterEnv) (e : String)
    (h : (check_cluster_admin env).error = some e) : e ≠ "" := by
  by_cases hb1 : (run_command_with_retries env.execWhoami 3 3).error = none
  · by_cases hb2 : (run_command_with_retries env.execCanI 3 3).error = none
    · obtain ⟨u, hu⟩ : ∃ u, (run_command_with_retries env.execWhoami 3 3).output = some u := by
        rcases runLoop_output_or_error env.execWhoami (toString (3 : Int))
            (toString (3 : Int)) (3 : Int).toNat 0 with hl | ⟨e', he'⟩
        · exact hl
        · rw [run_command_with_retries] at hb1
          rw [hb1] at he'
          cases he'
      obtain ⟨av, ha⟩ : ∃ av, (run_command_with_retries env.execCanI 3 3).output = some av := by
        rcases runLoop_output_or_error env.execCanI (toString (3 : Int))
            (toString (3 : Int)) (3 : Int).toNat 0 with hl | ⟨e', he'⟩
        · exact hl
        · rw [run_command_with_retries] at hb2
          rw [hb2] at he'
          cases he'
      rw [check_cluster_admin_policy_eval env u av hu hb1 ha hb2] at h
      split at h
      · simp at h
      · simp only [Option.some.injEq] at h
        subst h
        decide
    · obtain ⟨e2, he2⟩ : ∃ e2, (run_command_with_retries env.execCanI 3 3).error = some e2 :=
        Option.ne_none_iff_exists'.mp hb2
      rw [check_cluster_admin_cani_error env e2 hb1 he2] at h
      simp only [Option.some.injEq] at h
      subst h
      exact append_ne_empty_left _ _ (by decide)
  · obtain ⟨e1, he1⟩ : ∃ e1, (run_command_with_retries env.execWhoami 3 3).error = some e1 :=
      Option.ne_none_iff_exists'.mp hb1
    rw [check_cluster_admin_identity_error env e1 he1] at h
    simp only [Option.some.injEq] at h
    subst h
    decide

/-! ### Claims about the retrying command runner -/

/-- Claim C2: for every command and `maxAttempts = N`, if the first `k`
attempts (`k < N`) exit non-zero and attempt `k+1` exits 0,
`run_command_with_retries` returns that attempt's stdout with surrounding
whitespace stripped and no error, makes no further attempts (exactly `k+1`
invocations), and performs exactly `k` delays — one after each failed
non-final attempt. -/
theorem runner_returns_first_success (exec : Nat → CmdResult) (N k : Nat)
    (delay : Int) (hk : k < N)
    (hfail : ∀ i, i < k → (exec i).rc ≠ 0) (hsucc : (exec k).rc = 0) :
    (run_command_with_retries exec (N : Int) delay).output =
        some (pyStrip ((exec k).stdout)) ∧
    (run_command_with_retries exec (N : Int) delay).error = none ∧
    (run_command_with_retries exec (N : Int) delay).attempts = k + 1 ∧
    (run_command_with_retries exec (N : Int) delay).delays = k := by
  have h := runLoop_success exec (toString (N : Int)) (toString delay) k 0 N hk
    (fun i hi => by rw [Nat.zero_add]; exact hfail i hi)
    (by rw [Nat.zero_add]; exact hsucc)
  rw [Nat.zero_add] at h
  unfold run_command_with_retries
  rw [Int.toNat_natCast]
  exact h

/-- Witness for C2: two failures then a success at the third attempt. -/
theorem runner_returns_first_success_witness :
    (run_command_with_retries
        (fun i => if i < 2 then (⟨1, "", "transient"⟩ : CmdResult) else ⟨0, "  ok\n", ""⟩)
        ((3 : Nat) : Int) 3).output = some "ok" ∧
    (run_command_with_retries
        (fun i => if i < 2 then (⟨1, "", "transient"⟩ : CmdResult) else ⟨0, "  ok\n", ""⟩)
        ((3 : Nat) : Int) 3).error = none ∧
    (run_command_with_retries
        (fun i => if i < 2 then (⟨1, "", "transient"⟩ : CmdResult) else ⟨0, "  ok\n", ""⟩)
        ((3 : Nat) : Int) 3).attempts = 3 ∧
    (run_command_with_retries
        (fun i => if i < 2 then (⟨1, "", "transient"⟩ : CmdResult) else ⟨0, "  ok\n", ""⟩)
        ((3 : Nat) : Int) 3).delays = 2 := by
  have h := runner_returns_first_success
    (fun i => if i < 2 then (⟨1, "", "transient"⟩ : CmdResult) else ⟨0, "  ok\n", ""⟩)
    3 2 3 (by decide) (by decide) (by decide)
  refine ⟨?_, h.2.1, h.2.2.1, h.2.2.2⟩
  rw [h.1]
  decide

/-- Claim C3: if all `N ≥ 1` attempts exit non-zero, the runner returns a
failure whose message embeds the attempt count `N` and the final attempt's
stripped stderr, with exactly `N` attempts and `N - 1` delays (none after
the final attempt). -/
theorem runner_all_attempts_fail (exec : Nat → CmdResult) (N : Nat) (delay : Int)
    (hN : 1 ≤ N) (hfail : ∀ i, i < N → (exec i).rc ≠ 0) :
    (run_command_with_retries exec (N : Int) delay).output = none ∧
    (run_command_with_retries exec (N : Int) delay).error =
      some ("Command failed after " ++ toString (N : Int) ++ " attempts: " ++
        pyStrip ((exec (N - 1)).stderr)) ∧
    (run_command_with_retries exec (N : Int) delay).attempts = N ∧
    (run_command_with_retries exec (N : Int) delay).delays = N - 1 ∧
    strContains
      ("Command failed after " ++ toString (N : Int) ++ " attempts: " ++
        pyStrip ((exec (N - 1)).stderr)) (toString (N : Int)) = true ∧
    strContains
      ("Command failed after " ++ toString (N : Int) ++ " attempts: " ++
        pyStrip ((exec (N - 1)).stderr)) (pyStrip ((exec (N - 1)).stderr)) = true := by
  have h := runLoop_allfail exec (toString (N : Int)) (toString delay) N 0 (by omega)
    (fun i hi => by rw [Nat.zero_add]; exact hfail i hi)
  rw [Nat.zero_add] at h
  have hbase : (run_command_with_retries exec (N : Int) delay).output = none ∧
      (run_command_with_retries exec (N : Int) delay).error =
        some ("Command failed after " ++ toString (N : Int) ++ " attempts: " ++
          pyStrip ((exec (N - 1)).stderr)) ∧
      (run_command_with_retries exec (N : Int) delay).attempts = N ∧
      (run_command_with_retries exec (N : Int) delay).delays = N - 1 := by
    unfold run_command_with_retries
    rw [Int.toNat_natCast]
    exact h
  refine ⟨hbase.1, hbase.2.1, hbase.2.2.1, hbase.2.2.2, ?_, ?_⟩
  · rw [String.append_assoc ("Command failed after " ++ toString (N : Int)) " attempts: "
      (pyStrip ((exec (N - 1)).stderr)),
      String.append_assoc "Command failed after " (toString (N : Int))
      (" attempts: " ++ pyStrip ((exec (N - 1)).stderr))]
    exact strContains_append_mid _ _ _
  · exact strContains_append_right _ _

/-- Witness for C3: three failures, the last with stderr `  fatal \n`. -/
theorem runner_all_attempts_fail_witness :
    (run_command_with_retries (fun _ => (⟨1, "", " fatal \n"⟩ : CmdResult)) ((3 : Nat) : Int) 3).output
        = none ∧
    (run_command_with_retries (fun _ => (⟨1, "", " fatal \n"⟩ : CmdResult)) ((3 : Nat) : Int) 3).error
        = some "Command failed after 3 attempts: fatal" ∧
    (run_command_with_retries (fun _ => (⟨1, "", " fatal \n"⟩ : CmdResult)) ((3 : Nat) : Int) 3).attempts
        = 3 ∧
    (run_command_with_retries (fun _ => (⟨1, "", " fatal \n"⟩ : CmdResult)) ((3 : Nat) : Int) 3).delays
        = 2 ∧
    strContains "Command failed after 3 attempts: fatal" "3" = true ∧
    strContains "Command failed after 3 attempts: fatal" "fatal" = true := by
  have h := runner_all_attempts_fail (fun _ => (⟨1, "", " fatal \n"⟩ : CmdResult)) 3 3
    (by decide) (by decide)
  refine ⟨h.1, ?_, h.2.2.1, h.2.2.2.1, by decide, by decide⟩
  rw [h.2.1]
  decide

/-- Claim C9: with `retries ≤ 0` the attempt loop never runs, and the
function still returns a generic terminal failure — `None` output together
with the non-empty message `Unknown error` — rather than an undefined or
empty result. -/
theorem runner_no_attempt_generic_failure (exec : Nat → CmdResult)
    (retries delay : Int) (h : retries ≤ 0) :
    run_command_with_retries exec retries delay =
      ⟨none, some "Unknown error", 0, 0, []⟩ ∧
    ("Unknown error" : String) ≠ "" := by
  constructor
  · unfold run_command_with_retries
    rw [Int.toNat_of_nonpos h]
    rfl
  · decide

/-- Witness for C9: `retries = -1` yields the generic failure. -/
theorem runner_no_attempt_generic_failure_witness :
    run_command_with_retries (fun _ => (⟨0, "unused", ""⟩ : CmdResult)) (-1) 3 =
      ⟨none, some "Unknown error", 0, 0, []⟩ ∧
    ("Unknown error" : String) ≠ "" :=
  runner_no_attempt_generic_failure (fun _ => (⟨0, "unused", ""⟩ : CmdResult)) (-1) 3
    (by decide)

/-! ### Claims about the cluster-admin decision -/

/-- Claim C1: whenever both commands succeed, `check_cluster_admin`
authorizes the user if and only if the stripped permission output contains
the case-sensitive substring `yes` or the stripped identity equals
`system:admin`; when authorized it returns `(user, None)`. -/
theorem check_cluster_admin_authorizes_iff (env : ClusterEnv) (u a : String)
    (h1 : (run_command_with_retries env.execWhoami 3 3).output = some u)
    (h1e : (run_command_with_retries env.execWhoami 3 3).error = none)
    (h2 : (run_command_with_retries env.execCanI 3 3).output = some a)
    (h2e : (run_command_with_retries env.execCanI 3 3).error = none) :
    ((check_cluster_admin env).user = some u ∧ (check_cluster_admin env).error = none)
      ↔ (strContains a "yes" = true ∨ u = "system:admin") := by
  rw [check_cluster_admin_policy_eval env u a h1 h1e h2 h2e]
  by_cases hc : (strContains a "yes" || u == "system:admin") = true
  · rw [if_pos hc]
    simp only [Bool.or_eq_true, beq_iff_eq] at hc
    simp [hc]
  · rw [if_neg hc]
    simp only [Bool.or_eq_true, beq_iff_eq] at hc
    simp [hc]

/-- Witness for C1, end-to-end scenario A: identity `system:admin`,
permission output `no` — authorized by the identity disjunct. -/
theorem check_cluster_admin_authorizes_iff_witness :
    ((check_cluster_admin
        ⟨fun _ => ⟨0, "system:admin", ""⟩, fun _ => ⟨0, "no", ""⟩⟩).user =
          some "system:admin" ∧
     (check_cluster_admin
        ⟨fun _ => ⟨0, "system:admin", ""⟩, fun _ => ⟨0, "no", ""⟩⟩).error = none)
      ↔ (strContains "no" "yes" = true ∨ "system:admin" = "system:admin") :=
  check_cluster_admin_authorizes_iff
    ⟨fun _ => ⟨0, "system:admin", ""⟩, fun _ => ⟨0, "no", ""⟩⟩
    "system:admin" "no" (by decide) (by decide) (by decide) (by decide)

/-- Counterexample to claim C4 as stated: every identity attempt fails with
stderr `Ensure`; the error returned by `check_cluster_admin` then does
contain that raw retry stderr text as a substring (the stderr happens to
occur in the fixed generic hint), so "does not contain the raw retry
stderr text" is false in general. -/
theorem check_identity_error_contains_stderr_counterexample :
    (run_command_with_retries (fun _ => (⟨1, "", "Ensure"⟩ : CmdResult)) 3 3).error =
      some "Command failed after 3 attempts: Ensure" ∧
    (check_cluster_admin ⟨fun _ => ⟨1, "", "Ensure"⟩, fun _ => ⟨0, "yes", ""⟩⟩).error =
      some "Failed to execute `oc whoami`. Ensure `oc` client is configured correctly." ∧
    strContains "Failed to execute `oc whoami`. Ensure `oc` client is configured correctly."
      "Ensure" = true := by decide

/-- Claim C4 (amended): when the identity command exhausts its retries the
returned error is the fixed generic configuration-hint string, independent
of the retry failure detail (so it embeds no stderr, though a stderr that
happens to be a substring of that fixed text is trivially contained); when
the permission command exhausts its retries the returned error does contain
the raw retry failure text produced by the runner. -/
theorem check_asymmetric_error_detail (env : ClusterEnv) (e1 e2 : String) :
    ((run_command_with_retries env.execWhoami 3 3).error = some e1 →
      (check_cluster_admin env).error =
        some "Failed to execute `oc whoami`. Ensure `oc` client is configured correctly.") ∧
    ((run_command_with_retries env.execWhoami 3 3).error = none →
      (run_command_with_retries env.execCanI 3 3).error = some e2 →
      (check_cluster_admin env).error =
        some ("Failed to verify cluster-admin rights. Error: " ++ e2) ∧
      strContains ("Failed to verify cluster-admin rights. Error: " ++ e2) e2 = true) := by
  constructor
  · intro h
    rw [check_cluster_admin_identity_error env e1 h]
  · intro h1 h2
    rw [check_cluster_admin_cani_error env e2 h1 h2]
    exact ⟨rfl, strContains_append_right _ _⟩

/-- Witness for C4 (amended): identity exhaustion on one environment,
permission exhaustion on another, both with stderr `boom`. -/
theorem check_asymmetric_error_detail_witness :
    (check_cluster_admin ⟨fun _ => ⟨1, "", "boom"⟩, fun _ => ⟨0, "yes", ""⟩⟩).error =
      some "Failed to execute `oc whoami`. Ensure `oc` client is configured correctly." ∧
    (check_cluster_admin ⟨fun _ => ⟨0, "alice", ""⟩, fun _ => ⟨1, "", "boom"⟩⟩).error =
      some ("Failed to verify cluster-admin rights. Error: " ++
        "Command failed after 3 attempts: boom") ∧
    strContains ("Failed to verify cluster-admin rights. Error: " ++
        "Command failed after 3 attempts: boom")
      "Command failed after 3 attempts: boom" = true := by
  refine ⟨?_, ?_⟩
  · exact (check_asymmetric_error_detail
      ⟨fun _ => ⟨1, "", "boom"⟩, fun _ => ⟨0, "yes", ""⟩⟩
      "Command failed after 3 attempts: boom" "x").1 (by decide)
  · exact (check_asymmetric_error_detail
      ⟨fun _ => ⟨0, "alice", ""⟩, fun _ => ⟨1, "", "boom"⟩⟩
      "x" "Command failed after 3 attempts: boom").2 (by decide) (by decide)

/-- Claim C5: if every one of the identity command's 3 attempts fails,
`check_cluster_admin` returns `user = None` with an error containing
`Ensure`, and the permission command is never invoked. -/
theorem check_identity_exhaustion_short_circuit (env : ClusterEnv)
    (hfail : ∀ i, i < 3 → (env.execWhoami i).rc ≠ 0) :
    (check_cluster_admin env).user = none ∧
    (check_cluster_admin env).error =
      some "Failed to execute `oc whoami`. Ensure `oc` client is configured correctly." ∧
    strContains "Failed to execute `oc whoami`. Ensure `oc` client is configured correctly."
      "Ensure" = true ∧
    (check_cluster_admin env).caniAttempts = 0 := by
  have h := runLoop_allfail env.execWhoami (toString (3 : Int)) (toString (3 : Int)) 3 0
    (by omega) (fun i hi => by rw [Nat.zero_add]; exact hfail i hi)
  have hc := check_cluster_admin_identity_error env _
    (show (run_command_with_retries env.execWhoami 3 3).error = some _ from h.2.1)
  rw [hc]
  exact ⟨rfl, rfl, by decide, rfl⟩

/-- Witness for C5: all identity attempts exit 1. -/
theorem check_identity_exhaustion_short_circuit_witness :
    (check_cluster_admin
        ⟨fun _ => ⟨1, "", "connection refused"⟩, fun _ => ⟨0, "yes", ""⟩⟩).user = none ∧
    (check_cluster_admin
        ⟨fun _ => ⟨1, "", "connection refused"⟩, fun _ => ⟨0, "yes", ""⟩⟩).error =
      some "Failed to execute `oc whoami`. Ensure `oc` client is configured correctly." ∧
    strContains "Failed to execute `oc whoami`. Ensure `oc` client is configured correctly."
      "Ensure" = true ∧
    (check_cluster_admin
        ⟨fun _ => ⟨1, "", "connection refused"⟩, fun _ => ⟨0, "yes", ""⟩⟩).caniAttempts = 0 :=
  check_identity_exhaustion_short_circuit
    ⟨fun _ => ⟨1, "", "connection refused"⟩, fun _ => ⟨0, "yes", ""⟩⟩ (by decide)

/-- Counterexample to claim C6 as stated: the lowercase substring `yes` is
NOT present in `Yes please` (Python's `in` is case-sensitive), so with
identity `alice` and permission output `Yes please` the decision does not
authorize — it returns the not-authorized error, not `(user, None)`. -/
theorem check_Yes_please_counterexample :
    strContains "Yes please" "yes" = false ∧
    check_cluster_admin ⟨fun _ => ⟨0, "alice", ""⟩, fun _ => ⟨0, "Yes please", ""⟩⟩ =
      ⟨some "alice", some "User does not have `cluster-admin` rights.", 1, 1⟩ := by decide

/-- Claim C6 (amended): for permission-check output `Yes please` (with
identity not equal to `system:admin`) the decision does NOT authorize the
user, because the case-sensitive lowercase substring `yes` is absent from
that output. -/
theorem check_Yes_please_not_authorized (env : ClusterEnv) (u : String)
    (h1 : (run_command_with_retries env.execWhoami 3 3).output = some u)
    (h1e : (run_command_with_retries env.execWhoami 3 3).error = none)
    (h2 : (run_command_with_retries env.execCanI 3 3).output = some "Yes please")
    (h2e : (run_command_with_retries env.execCanI 3 3).error = none)
    (hu : u ≠ "system:admin") :
    strContains "Yes please" "yes" = false ∧
    (check_cluster_admin env).user = some u ∧
    (check_cluster_admin env).error = some "User does not have `cluster-admin` rights." := by
  have hy : strContains "Yes please" "yes" = false := by decide
  have hc : (strContains "Yes please" "yes" || u == "system:admin") = false := by
    rw [hy, Bool.false_or]
    exact beq_eq_false_iff_ne.mpr hu
  have heq := check_cluster_admin_policy_eval env u "Yes please" h1 h1e h2 h2e
  rw [if_neg (by rw [hc]; exact Bool.false_ne_true)] at heq
  rw [heq]
  exact ⟨hy, rfl, rfl⟩

/-- Witness for C6 (amended): identity `alice`, permission `Yes please`. -/
theorem check_Yes_please_not_authorized_witness :
    strContains "Yes please" "yes" = false ∧
    (check_cluster_admin
        ⟨fun _ => ⟨0, "alice", ""⟩, fun _ => ⟨0, "Yes please", ""⟩⟩).user = some "alice" ∧
    (check_cluster_admin
        ⟨fun _ => ⟨0, "alice", ""⟩, fun _ => ⟨0, "Yes please", ""⟩⟩).error =
      some "User does not have `cluster-admin` rights." :=
  check_Yes_please_not_authorized
    ⟨fun _ => ⟨0, "alice", ""⟩, fun _ => ⟨0, "Yes please", ""⟩⟩ "alice"
    (by decide) (by decide) (by decide) (by decide) (by decide)

/-- Counterexample to claim C7 as stated: the error string the code
returns is `User does not have \x60cluster-admin\x60 rights.` — with
backticks around `cluster-admin` — which is not exactly equal to the
claimed string `User does not have cluster-admin rights.` without them. -/
theorem check_not_authorized_message_counterexample :
    (check_cluster_admin ⟨fun _ => ⟨0, "alice", ""⟩, fun _ => ⟨0, "no", ""⟩⟩).error =
      some "User does not have `cluster-admin` rights." ∧
    (check_cluster_admin ⟨fun _ => ⟨0, "alice", ""⟩, fun _ => ⟨0, "no", ""⟩⟩).error ≠
      some "User does not have cluster-admin rights." := by decide

/-- Claim C7 (amended): when both commands succeed but neither
authorization condition holds, `check_cluster_admin` returns the user
together with the exact error string
`User does not have \x60cluster-admin\x60 rights.` (backticks included). -/
theorem check_not_authorized_error_message (env : ClusterEnv) (u a : String)
    (h1 : (run_command_with_retries env.execWhoami 3 3).output = some u)
    (h1e : (run_command_with_retries env.execWhoami 3 3).error = none)
    (h2 : (run_command_with_retries env.execCanI 3 3).output = some a)
    (h2e : (run_command_with_retries env.execCanI 3 3).error = none)
    (hno : strContains a "yes" = false) (hu : u ≠ "system:admin") :
    (check_cluster_admin env).user = some u ∧
    (check_cluster_admin env).error = some "User does not have `cluster-admin` rights." := by
  have hc : (strContains a "yes" || u == "system:admin") = false := by
    rw [hno, Bool.false_or]
    exact beq_eq_false_iff_ne.mpr hu
  have heq := check_cluster_admin_policy_eval env u a h1 h1e h2 h2e
  rw [if_neg (by rw [hc]; exact Bool.false_ne_true)] at heq
  rw [heq]
  exact ⟨rfl, rfl⟩

/-- Witness for C7 (amended), end-to-end scenario C: `alice` / `no`. -/
theorem check_not_authorized_error_message_witness :
    (check_cluster_admin ⟨fun _ => ⟨0, "alice", ""⟩, fun _ => ⟨0, "no", ""⟩⟩).user =
      some "alice" ∧
    (check_cluster_admin ⟨fun _ => ⟨0, "alice", ""⟩, fun _ => ⟨0, "no", ""⟩⟩).error =
      some "User does not have `cluster-admin` rights." :=
  check_not_authorized_error_message
    ⟨fun _ => ⟨0, "alice", ""⟩, fun _ => ⟨0, "no", ""⟩⟩ "alice" "no"
    (by decide) (by decide) (by decide) (by decide) (by decide) (by decide)

/-! ### Claims about the module boundary -/

/-- Counterexample to claim C8 as stated: when the identity could not be
established the user slot of the failure message is not empty — Python
renders the absent user as the four characters `None`. -/
theorem run_module_user_slot_counterexample :
    run_module ⟨fun _ => ⟨1, "", "boom"⟩, fun _ => ⟨0, "yes", ""⟩⟩ =
      ModuleResponse.failJson
        "Current user `None` does not have `cluster-admin` rights. Failed to execute `oc whoami`. Ensure `oc` client is configured correctly." ∧
    run_module ⟨fun _ => ⟨1, "", "boom"⟩, fun _ => ⟨0, "yes", ""⟩⟩ ≠
      ModuleResponse.failJson
        "Current user `` does not have `cluster-admin` rights. Failed to execute `oc whoami`. Ensure `oc` client is configured correctly." := by decide

/-- Claim C8 (amended): whenever the check fails, `run_module` produces a
failed result whose message is
`Current user \x60<user-or-None>\x60 does not have \x60cluster-admin\x60 rights. <detail>`;
when the identity could not be established (user is `None`) the slot holds
the text `None` — not the empty string. -/
theorem run_module_failed_message_form (env : ClusterEnv) (e : String)
    (h : (check_cluster_admin env).error = some e) :
    run_module env =
      ModuleResponse.failJson
        ("Current user `" ++ pyStrOpt (check_cluster_admin env).user ++
          "` does not have `cluster-admin` rights. " ++ e) ∧
    ((check_cluster_admin env).user = none →
      pyStrOpt (check_cluster_admin env).user = "None") := by
  have hne := check_error_ne_empty env e h
  refine ⟨?_, fun hu => by rw [hu]; rfl⟩
  simp only [run_module, h, pyTruthy, Option.getD_some]
  simp [hne]

/-- Witness for C8 (amended): identity exhaustion makes the check fail
with no user, and the emitted message carries `None` in the user slot. -/
theorem run_module_failed_message_form_witness :
    run_module ⟨fun _ => ⟨1, "", "boom"⟩, fun _ => ⟨0, "yes", ""⟩⟩ =
      ModuleResponse.failJson
        ("Current user `" ++
          pyStrOpt (check_cluster_admin
            ⟨fun _ => ⟨1, "", "boom"⟩, fun _ => ⟨0, "yes", ""⟩⟩).user ++
          "` does not have `cluster-admin` rights. " ++
          "Failed to execute `oc whoami`. Ensure `oc` client is configured correctly.") ∧
    pyStrOpt (check_cluster_admin
        ⟨fun _ => ⟨1, "", "boom"⟩, fun _ => ⟨0, "yes", ""⟩⟩).user = "None" := by
  have h := run_module_failed_message_form
    ⟨fun _ => ⟨1, "", "boom"⟩, fun _ => ⟨0, "yes", ""⟩⟩
    "Failed to execute `oc whoami`. Ensure `oc` client is configured correctly."
    (by decide)
  exact ⟨h.1, h.2 (by decide)⟩

/-- Claim C10: when both commands succeed and the user is not authorized,
the failure message emitted by `run_module` contains the phrase
`does not have \x60cluster-admin\x60 rights.` twice — once from the outer
template and once from the appended detail; at least twice for every such
user, and exactly twice in the `alice` example
`Current user \x60alice\x60 does not have \x60cluster-admin\x60 rights. User does not have \x60cluster-admin\x60 rights.`. -/
theorem run_module_unauthorized_double_phrase (env : ClusterEnv) (u a : String)
    (h1 : (run_command_with_retries env.execWhoami 3 3).output = some u)
    (h1e : (run_command_with_retries env.execWhoami 3 3).error = none)
    (h2 : (run_command_with_retries env.execCanI 3 3).output = some a)
    (h2e : (run_command_with_retries env.execCanI 3 3).error = none)
    (hno : strContains a "yes" = false) (hu : u ≠ "system:admin") :
    run_module env =
      ModuleResponse.failJson
        ("Current user `" ++ u ++ "` does not have `cluster-admin` rights. " ++
          "User does not have `cluster-admin` rights.") ∧
    2 ≤ countOccs
        ("Current user `" ++ u ++ "` does not have `cluster-admin` rights. " ++
          "User does not have `cluster-admin` rights.")
        "does not have `cluster-admin` rights." ∧
    countOccs
        "Current user `alice` does not have `cluster-admin` rights. User does not have `cluster-admin` rights."
        "does not have `cluster-admin` rights." = 2 := by
  have hc : (strContains a "yes" || u == "system:admin") = false := by
    rw [hno, Bool.false_or]
    exact beq_eq_false_iff_ne.mpr hu
  have heq := check_cluster_admin_policy_eval env u a h1 h1e h2 h2e
  rw [if_neg (by rw [hc]; exact Bool.false_ne_true)] at heq
  have ht : pyTruthy (some "User does not have `cluster-admin` rights.") = true := by decide
  refine ⟨?_, ?_, by decide⟩
  · simp only [run_module, heq, ht, if_true, reduceIte, pyStrOpt, Option.getD_some]
  · unfold countOccs
    rw [String.data_append, String.data_append, String.data_append]
    rw [List.append_assoc ("Current user `".data ++ u.data)
      ("` does not have `cluster-admin` rights. ".data)
      ("User does not have `cluster-admin` rights.".data)]
    rw [List.append_assoc ("Current user `".data) u.data
      ("` does not have `cluster-admin` rights. ".data ++
        "User does not have `cluster-admin` rights.".data)]
    calc (2 : Nat) ≤ countOccsAux "does not have `cluster-admin` rights.".data
          ("` does not have `cluster-admin` rights. ".data ++
            "User does not have `cluster-admin` rights.".data) := by decide
      _ ≤ countOccsAux "does not have `cluster-admin` rights.".data
          (u.data ++ ("` does not have `cluster-admin` rights. ".data ++
            "User does not have `cluster-admin` rights.".data)) :=
        countOccsAux_append_le _ _ _
      _ ≤ countOccsAux "does not have `cluster-admin` rights.".data
          ("Current user `".data ++ (u.data ++
            ("` does not have `cluster-admin` rights. ".data ++
              "User does not have `cluster-admin` rights.".data))) :=
        countOccsAux_append_le _ _ _

/-- Witness for C10: the `alice` / `no` scenario. -/
theorem run_module_unauthorized_double_phrase_witness :
    run_module ⟨fun _ => ⟨0, "alice", ""⟩, fun _ => ⟨0, "no", ""⟩⟩ =
      ModuleResponse.failJson
        ("Current user `" ++ "alice" ++ "` does not have `cluster-admin` rights. " ++
          "User does not have `cluster-admin` rights.") ∧
    2 ≤ countOccs
        ("Current user `" ++ "alice" ++ "` does not have `cluster-admin` rights. " ++
          "User does not have `cluster-admin` rights.")
        "does not have `cluster-admin` rights." ∧
    countOccs
        "Current user `alice` does not have `cluster-admin` rights. User does not have `cluster-admin` rights."
        "does not have `cluster-admin` rights." = 2 :=
  run_module_unauthorized_double_phrase
    ⟨fun _ => ⟨0, "alice", ""⟩, fun _ => ⟨0, "no", ""⟩⟩ "alice" "no"
    (by decide) (by decide) (by decide) (by decide) (by decide) (by decide)

end CheckWhoami
